import Mathlib

/-!
Verification of the gmap-llm-js search aggregation and pagination engine.

The repository has three JavaScript variants of one Netlify function:
* `src/unnamed/part_000` — `find-places.js` with an anchor location
  (geocoding, haversine distances, composite distance/rating sort);
* `src/unnamed/part_001` — `find-places.js` without an anchor
  (plain aggregation and pagination);
* `src/netlify/functions/find-places-llm.js` — the part_001 pipeline plus an
  LLM query-rewrite step (`preprocessQueryWithLLM`).

The shallow embedding below translates those functions into Lean.  Network
effects are made explicit: the upstream places endpoint is a function from
the request index (the number of requests issued so far) to an optional
response, where `none` models a rejected request (thrown by `makeRequest`).
JavaScript numbers are modelled as `ℚ` for data values and as `ℝ` where the
source computes with transcendental functions (the haversine formula).
-/

/-- A latitude/longitude pair, as produced by the geocoder and carried in
`place.geometry.location`. -/
structure Coord where
  lat : ℚ
  lng : ℚ
deriving DecidableEq

/-- The `geometry` sub-record of a raw place.  The source guards on both
`place.geometry` and `place.geometry.location`, so the location is itself
optional. -/
structure Geometry where
  location : Option Coord
deriving DecidableEq

/-- A raw place record as returned by the upstream text-search endpoint,
restricted to the fields the source reads. -/
structure RawPlace where
  place_id : String
  name : String
  formatted_address : Option String
  rating : Option ℚ
  geometry : Option Geometry
deriving DecidableEq

/-- One upstream text-search response: `status`, `results` and the optional
`next_page_token` continuation token. -/
structure UpstreamResponse where
  status : String
  results : List RawPlace
  next_page_token : Option String
deriving DecidableEq

/-- The pagination record built by `calculatePagination` (identical in all
three source files). -/
structure PaginationInfo where
  current_page : Nat
  total_results : Nat
  results_per_page : Nat
  total_pages : Nat
  has_next_page : Bool
  has_prev_page : Bool
deriving DecidableEq

/-- The errors `searchPlaces` can throw, with the data carried in the thrown
message strings: `"top_n must be between 1 and 60"`, `"page must be 1 or
greater"`, the rethrown geocoding failure, and
`"Page [page] not found. Total pages available: [totalPages]"`. -/
inductive SearchError where
  | invalidTopN : SearchError
  | invalidPage : SearchError
  | geocodeFailed : SearchError
  | pageNotFound (page : Nat) (totalPages : Nat) : SearchError
deriving DecidableEq

instance {ε α : Type} [DecidableEq ε] [DecidableEq α] : DecidableEq (Except ε α)
  | .ok a, .ok b =>
    if h : a = b then .isTrue (by rw [h]) else .isFalse (by simp [h])
  | .error a, .error b =>
    if h : a = b then .isTrue (by rw [h]) else .isFalse (by simp [h])
  | .ok _, .error _ => .isFalse (by simp)
  | .error _, .ok _ => .isFalse (by simp)

/-- `Math.ceil(totalResults / topN)` on non-negative integers: the ceiling of
the exact rational quotient. -/
def ceilPages (totalResults topN : Nat) : Nat :=
  ⌈(totalResults : ℚ) / topN⌉₊

/-- `Array.prototype.slice(start, end)` for `start ≤ end` within bounds:
the elements at indices `start .. end - 1`. -/
def jsSlice (l : List α) (s e : Nat) : List α :=
  (l.drop s).take (e - s)

/-- `calculatePagination(totalResults, topN, currentPage)` — identical in
`part_000` (lines 155-166), `part_001` (lines 96-107) and
`find-places-llm.js` (lines 151-162). -/
def calculatePagination (totalResults topN currentPage : Nat) : PaginationInfo :=
  let totalPages := ceilPages totalResults topN
  { current_page := currentPage
    total_results := totalResults
    results_per_page := topN
    total_pages := totalPages
    has_next_page := decide (currentPage < totalPages)
    has_prev_page := decide (1 < currentPage) }

/-- The body of the `while` loop of `getAllPlaces` (part_000 lines 74-122,
part_001 lines 34-77, find-places-llm.js lines 90-132; the three loops are
token-identical — the anchor in part_000 only changes the request URL).

`env k` is the upstream response to the `k`-th issued request; `none` models
a rejected request, whose exception is caught by the surrounding
`try`/`catch`, keeping the pages already accumulated.  The fuel argument
encodes the `requestsMade < maxRequests` guard (3 requests in total); the
returned pair is the accumulator together with the number of requests
issued.  A response whose token is absent or empty (`!nextPageToken`) or a
status other than `"OK"`/`"ZERO_RESULTS"` ends the loop. -/
def fetchLoop (env : Nat → Option UpstreamResponse) (maxResults : Nat) :
    Nat → Nat → List RawPlace → List RawPlace × Nat
  | 0, issued, acc => (acc, issued)
  | fuel + 1, issued, acc =>
    if acc.length < maxResults then
      match env issued with
      | none => (acc, issued + 1)
      | some resp =>
        if resp.status ≠ "OK" ∧ resp.status ≠ "ZERO_RESULTS" then
          (acc, issued + 1)
        else
          let acc2 := acc ++ resp.results
          match resp.next_page_token with
          | none => (acc2, issued + 1)
          | some t =>
            if t = "" then (acc2, issued + 1)
            else if maxResults ≤ acc2.length then (acc2, issued + 1)
            else fetchLoop env maxResults fuel (issued + 1) acc2
    else (acc, issued)

/-- The ordered sequence of raw places accumulated across the fetched pages,
before the final `allPlaces.slice(0, maxResults)`. -/
def accumulatedPlaces (env : Nat → Option UpstreamResponse) (maxResults : Nat) :
    List RawPlace :=
  (fetchLoop env maxResults 3 0 []).1

/-- The number of upstream requests issued by one run of `getAllPlaces`. -/
def requestsIssued (env : Nat → Option UpstreamResponse) (maxResults : Nat) : Nat :=
  (fetchLoop env maxResults 3 0 []).2

/-- `getAllPlaces(query, maxResults)` with the network abstracted into `env`:
the accumulated pages, truncated by `allPlaces.slice(0, maxResults)`. -/
def getAllPlaces (env : Nat → Option UpstreamResponse) (maxResults : Nat) :
    List RawPlace :=
  (accumulatedPlaces env maxResults).take maxResults

namespace FindPlaces

/-! Embedding of `src/unnamed/part_000` (`find-places.js` with anchor). -/

/-- JavaScript `Math.atan2(y, x)` on real numbers (standard library builtin
used by `calculateDistance`). -/
noncomputable def atan2 (y x : ℝ) : ℝ :=
  if 0 < x then Real.arctan (y / x)
  else if x < 0 then
    (if 0 ≤ y then Real.arctan (y / x) + Real.pi else Real.arctan (y / x) - Real.pi)
  else
    (if 0 < y then Real.pi / 2 else if y < 0 then -(Real.pi / 2) else 0)

/-- `calculateDistance(lat1, lng1, lat2, lng2)` — part_000 lines 59-71: the
haversine great-circle distance with Earth radius `R = 6371` km. -/
noncomputable def calculateDistance (lat1 lng1 lat2 lng2 : ℚ) : ℝ :=
  let R : ℝ := 6371
  let dLat : ℝ := ((lat2 : ℝ) - (lat1 : ℝ)) * (Real.pi / 180)
  let dLng : ℝ := ((lng2 : ℝ) - (lng1 : ℝ)) * (Real.pi / 180)
  let a : ℝ :=
    Real.sin (dLat / 2) * Real.sin (dLat / 2) +
      Real.cos ((lat1 : ℝ) * (Real.pi / 180)) *
        Real.cos ((lat2 : ℝ) * (Real.pi / 180)) *
        Real.sin (dLng / 2) * Real.sin (dLng / 2)
  let c : ℝ := 2 * atan2 (Real.sqrt a) (Real.sqrt (1 - a))
  R * c

/-- `Math.round(distance * 100) / 100` — part_000 line 148: round to two
decimal places (`Math.round` rounds half toward positive infinity, which is
Mathlib's `round`).  The result is the exact rational with denominator
dividing 100. -/
noncomputable def jsRound2 (d : ℝ) : ℚ :=
  (round (d * 100) : ℤ) / 100

/-- The formatted output record of part_000 (`formatPlaceInfo`, lines
125-152): name, address, rating, identifier, the two derived URLs and the
optional rounded distance. -/
structure FormattedPlace where
  name : String
  address : Option String
  rating : Option ℚ
  place_id : String
  maps_embed_url : String
  maps_direction_url : String
  distance_km : Option ℚ
deriving DecidableEq

/-- `formatPlaceInfo(place, anchorCoords)` — part_000 lines 125-152.  `key`
is the Google Maps API key and `encode` is the `encodeURIComponent` builtin,
both external to the repository.  `distance_km` stays `null` unless
`anchorCoords && place.geometry && place.geometry.location` holds. -/
noncomputable def formatPlaceInfo (key : String) (encode : String → String)
    (anchorCoords : Option Coord) (place : RawPlace) : FormattedPlace :=
  let embedUrl :=
    "https://www.google.com/maps/embed/v1/place?key=" ++ key ++
      "&q=place_id:" ++ place.place_id
  let directionUrl :=
    "https://www.google.com/maps/dir/?api=1&destination_place_id=" ++
      place.place_id ++ "&destination=" ++ encode (place.formatted_address.getD "")
  { name := place.name
    address := place.formatted_address
    rating := place.rating
    place_id := place.place_id
    maps_embed_url := embedUrl
    maps_direction_url := directionUrl
    distance_km :=
      match anchorCoords, place.geometry.bind Geometry.location with
      | some a, some c => some (jsRound2 (calculateDistance a.lat a.lng c.lat c.lng))
      | _, _ => none }

/-- The comparator passed to `formattedPlaces.sort` — part_000 lines
202-213.  A negative value places `a` before `b`. -/
def comparePlaces (a b : FormattedPlace) : ℚ :=
  match a.distance_km, b.distance_km with
  | some da, some db =>
    if |da - db| < 0.5 then (b.rating.getD 0) - (a.rating.getD 0)
    else da - db
  | some _, none => -1
  | none, some _ => 1
  | none, none => (b.rating.getD 0) - (a.rating.getD 0)

/-- `formattedPlaces.sort(comparator)` — part_000 line 202.  JavaScript
`Array.prototype.sort` is a stable sort consistent with its comparator; it is
modelled by the stable insertion sort on the relation
`comparePlaces a b ≤ 0`. -/
noncomputable def sortPlaces (l : List FormattedPlace) : List FormattedPlace :=
  List.insertionSort (fun a b => comparePlaces a b ≤ 0) l

/-- The ranked sequence of part_000's `searchPlaces`: every fetched raw place
formatted (lines 197-199) and then sorted (lines 202-213). -/
noncomputable def rankedPlaces (anchor : Coord) (env : Nat → Option UpstreamResponse)
    (key : String) (encode : String → String) : List FormattedPlace :=
  sortPlaces ((getAllPlaces env 60).map (formatPlaceInfo key encode (some anchor)))

/-- The success value of part_000's `searchPlaces`. -/
structure SearchResult where
  status : String
  results : List FormattedPlace
  pagination : PaginationInfo
  anchor_location : String
deriving DecidableEq

/-- `searchPlaces(query, topN, page)` — part_000 lines 169-239.  `geo` is the
outcome of `getCoordinates(GPS_ANCHOR)` (lines 35-56): the function throws
when the geocoder status is not `"OK"` or no candidate is returned, and
`searchPlaces` runs it inside the `try` whose `catch` rethrows, so a geocoder
failure propagates.  `anchorText` is the `GPS_ANCHOR` string. -/
noncomputable def searchPlaces (geo : Except Unit Coord)
    (env : Nat → Option UpstreamResponse) (key : String)
    (encode : String → String) (anchorText : String) (topN page : Nat) :
    Except SearchError SearchResult :=
  if topN < 1 ∨ 60 < topN then .error .invalidTopN
  else if page < 1 then .error .invalidPage
  else
    match geo with
    | .error _ => .error .geocodeFailed
    | .ok anchorCoords =>
      let allPlaces := getAllPlaces env 60
      if allPlaces.length = 0 then
        .ok { status := "ZERO_RESULTS"
              results := []
              pagination := calculatePagination 0 topN page
              anchor_location := anchorText }
      else
        let sorted := rankedPlaces anchorCoords env key encode
        let totalResults := sorted.length
        let totalPages := ceilPages totalResults topN
        let startIdx := (page - 1) * topN
        let endIdx := min (startIdx + topN) totalResults
        if totalResults ≤ startIdx then
          .error (.pageNotFound page totalPages)
        else
          .ok { status := "OK"
                results := jsSlice sorted startIdx endIdx
                pagination := calculatePagination totalResults topN page
                anchor_location := anchorText }

end FindPlaces

namespace FindPlacesBasic

/-! Embedding of `src/unnamed/part_001` (`find-places.js` without anchor)
and of the identical search pipeline of
`src/netlify/functions/find-places-llm.js` (lines 90-209). -/

/-- The formatted output record of part_001 (`formatPlaceInfo`, lines 80-93)
and of find-places-llm.js (lines 135-148): no distance field. -/
structure FormattedPlace where
  name : String
  address : Option String
  rating : Option ℚ
  place_id : String
  maps_embed_url : String
  maps_direction_url : String
deriving DecidableEq

/-- `formatPlaceInfo(place)` — part_001 lines 80-93. -/
def formatPlaceInfo (key : String) (encode : String → String)
    (place : RawPlace) : FormattedPlace :=
  let embedUrl :=
    "https://www.google.com/maps/embed/v1/place?key=" ++ key ++
      "&q=place_id:" ++ place.place_id
  let directionUrl :=
    "https://www.google.com/maps/dir/?api=1&destination_place_id=" ++
      place.place_id ++ "&destination=" ++ encode (place.formatted_address.getD "")
  { name := place.name
    address := place.formatted_address
    rating := place.rating
    place_id := place.place_id
    maps_embed_url := embedUrl
    maps_direction_url := directionUrl }

/-- The success value of part_001's `searchPlaces`. -/
structure SearchResult where
  status : String
  results : List FormattedPlace
  pagination : PaginationInfo
deriving DecidableEq

/-- `searchPlaces(query, topN, page)` — part_001 lines 110-159 (identically
find-places-llm.js lines 165-209): validate, fetch up to 60 places, return
`ZERO_RESULTS` immediately when nothing was fetched, otherwise slice the raw
aggregated list and format the requested page. -/
def searchPlaces (env : Nat → Option UpstreamResponse) (key : String)
    (encode : String → String) (topN page : Nat) :
    Except SearchError SearchResult :=
  if topN < 1 ∨ 60 < topN then .error .invalidTopN
  else if page < 1 then .error .invalidPage
  else
    let allPlaces := getAllPlaces env 60
    if allPlaces.length = 0 then
      .ok { status := "ZERO_RESULTS"
            results := []
            pagination := calculatePagination 0 topN page }
    else
      let totalResults := allPlaces.length
      let totalPages := ceilPages totalResults topN
      let startIdx := (page - 1) * topN
      let endIdx := min (startIdx + topN) totalResults
      if totalResults ≤ startIdx then
        .error (.pageNotFound page totalPages)
      else
        .ok { status := "OK"
              results := (jsSlice allPlaces startIdx endIdx).map (formatPlaceInfo key encode)
              pagination := calculatePagination totalResults topN page }

end FindPlacesBasic

namespace FindPlacesLLM

/-! Embedding of the query-rewrite step of
`src/netlify/functions/find-places-llm.js`. -/

/-- A chat message of the rewrite response; `content` is optional since a
malformed response may lack it (reading `.trim()` of `undefined` throws). -/
structure LlmMessage where
  content : Option String
deriving DecidableEq

/-- One completion choice of the rewrite response. -/
structure LlmChoice where
  message : LlmMessage
deriving DecidableEq

/-- The body of the rewrite response: its list of completion choices. -/
structure LlmResponse where
  choices : List LlmChoice
deriving DecidableEq

/-- `preprocessQueryWithLLM(userQuery)` — find-places-llm.js lines 61-87.
`resp` is the outcome of the `makeRequest` call to the chat-completions
endpoint: `none` models a rejected request.  Every failure inside the `try`
(rejected request, empty `choices`, missing `content`) is caught and the
original query is returned. -/
def preprocessQueryWithLLM (resp : Option LlmResponse) (userQuery : String) : String :=
  match resp with
  | none => userQuery
  | some r =>
    match r.choices with
    | [] => userQuery
    | c :: _ =>
      match c.message.content with
      | none => userQuery
      | some s => s.trim

end FindPlacesLLM

/-! ## Helper lemmas -/

/-- The rational-ceiling page count coincides with the integer formula
`(t + n - 1) / n` for a positive page size. -/
theorem ceilPages_eq (t n : ℕ) (hn : 1 ≤ n) :
    ceilPages t n = (t + n - 1) / n := by
  rcases Nat.eq_zero_or_pos t with ht | ht
  · subst ht
    simp [ceilPages, Nat.div_eq_of_lt (by omega : n - 1 < n)]
  · have hd : 1 ≤ (t + n - 1) / n := by
      rw [Nat.le_div_iff_mul_le (by omega : 0 < n)]
      omega
    have hn0 : (0:ℚ) < (n:ℚ) := by exact_mod_cast (by omega : 0 < n)
    rw [ceilPages, Nat.ceil_eq_iff (by omega : (t + n - 1) / n ≠ 0)]
    have hmod := Nat.div_add_mod (t + n - 1) n
    have hlt := Nat.mod_lt (t + n - 1) (by omega : 0 < n)
    set q := (t + n - 1) / n with hq
    set r := (t + n - 1) % n with hr
    rw [Nat.mul_comm n q] at hmod
    have h1 : (q - 1) * n < t := by
      rw [Nat.sub_mul, one_mul]
      generalize hk : q * n = k at hmod ⊢
      omega
    have h2 : t ≤ q * n := by
      generalize hk : q * n = k at hmod ⊢
      omega
    constructor
    · rw [lt_div_iff₀ hn0]
      exact_mod_cast h1
    · rw [div_le_iff₀ hn0]
      exact_mod_cast h2

/-- A page index is within the valid range exactly when its slice start lies
before the end of the list. -/
theorem lt_iff_page_le (t n p : ℕ) (hn : 1 ≤ n) (hp : 1 ≤ p) :
    (p - 1) * n < t ↔ p ≤ (t + n - 1) / n := by
  rw [Nat.le_div_iff_mul_le (by omega : 0 < n)]
  have hkn : n ≤ p * n := Nat.le_mul_of_pos_left n (by omega)
  rw [Nat.sub_mul, one_mul]
  generalize hk : p * n = k at hkn ⊢
  omega

/-- Splitting a list into `⌈length / n⌉` consecutive chunks of size `n` and
concatenating them reproduces the list. -/
theorem join_chunks {α : Type} (n : ℕ) (hn : 1 ≤ n) (l : List α) :
    ((List.range ((l.length + n - 1) / n)).map
      (fun i => (l.drop (i * n)).take n)).flatten = l := by
  generalize hlen : l.length = len
  induction len using Nat.strong_induction_on generalizing l with
  | _ len ih =>
    rcases Nat.eq_zero_or_pos len with h0 | hpos
    · subst h0
      have : l = [] := List.length_eq_zero.mp hlen
      subst this
      simp [Nat.div_eq_of_lt (by omega : 0 + n - 1 < n)]
    · rcases le_or_lt len n with hle | hgt
      · have hpages : (len + n - 1) / n = 1 := by
          apply Nat.div_eq_of_lt_le (by omega) (by omega)
        rw [hpages]
        have h01 : List.range 1 = [0] := rfl
        simp only [h01, List.map_cons, List.map_nil, List.flatten_cons,
          List.flatten_nil, List.drop_zero, List.append_nil, Nat.zero_mul]
        exact List.take_of_length_le (by omega)
      · have hpages : (len + n - 1) / n = ((len - n) + n - 1) / n + 1 := by
          have h1 : len + n - 1 = ((len - n) + n - 1) + n := by omega
          rw [h1, Nat.add_div_right _ (by omega : 0 < n)]
        rw [hpages, List.range_succ_eq_map]
        simp only [List.map_cons, List.map_map, List.flatten_cons]
        have hfun : ((fun i => (l.drop (i * n)).take n) ∘ Nat.succ) =
            (fun i => ((l.drop n).drop (i * n)).take n) := by
          funext i
          simp only [Function.comp_apply, List.drop_drop]
          rw [Nat.succ_mul, Nat.add_comm]
        rw [hfun]
        have hdlen : (l.drop n).length = len - n := by
          rw [List.length_drop, hlen]
        rw [ih (len - n) (by omega) (l.drop n) hdlen]
        simp

/-- Taking `min m length` elements is the same as taking `m` elements. -/
theorem take_min_length {α : Type} (xs : List α) (m : ℕ) :
    xs.take (min m xs.length) = xs.take m := by
  rcases le_or_lt m xs.length with h | h
  · rw [min_eq_left h]
  · rw [min_eq_right (by omega), List.take_length,
      List.take_of_length_le (by omega)]

/-- The slice the source takes for a page inside the list equals a plain
`drop`-then-`take`. -/
theorem jsSlice_eq_drop_take {α : Type} (l : List α) (s n : ℕ) :
    jsSlice l s (min (s + n) l.length) = (l.drop s).take n := by
  rw [jsSlice]
  have h1 : min (s + n) l.length - s = min n (l.length - s) := by omega
  rw [h1, ← List.length_drop s l, take_min_length]

/-- Length of an in-range page slice. -/
theorem jsSlice_length {α : Type} (l : List α) (s n : ℕ) :
    (jsSlice l s (min (s + n) l.length)).length = min n (l.length - s) := by
  rw [jsSlice_eq_drop_take, List.length_take, List.length_drop]

/-- Each unit of fuel accounts for at most one issued request. -/
theorem fetchLoop_snd_le (env : Nat → Option UpstreamResponse) (m : Nat) :
    ∀ fuel issued acc, (fetchLoop env m fuel issued acc).2 ≤ issued + fuel := by
  intro fuel
  induction fuel with
  | zero =>
    intro issued acc
    simp [fetchLoop]
  | succ f ih =>
    intro issued acc
    rw [fetchLoop]
    split
    · cases h : env issued with
      | none => simp
      | some resp =>
        by_cases h1 : resp.status ≠ "OK" ∧ resp.status ≠ "ZERO_RESULTS"
        · simp [h1]
        · simp only [if_neg h1]
          cases h2 : resp.next_page_token with
          | none => simp
          | some t =>
            by_cases h3 : t = ""
            · simp [h3]
            · simp only [if_neg h3]
              by_cases h4 : m ≤ acc.length + resp.results.length
              · simp [List.length_append, h4]
              · simp only [List.length_append, if_neg h4]
                exact le_trans (ih (issued + 1) (acc ++ resp.results)) (by omega)
    · omega

/-! ## Concrete inputs used by counterexamples and witnesses -/

/-- A raw place with identifier `"a"` and no optional data. -/
def pA : RawPlace := ⟨"a", "Alpha", none, none, none⟩

/-- A raw place with identifier `"b"` and no optional data. -/
def pB : RawPlace := ⟨"b", "Beta", none, none, none⟩

/-- An upstream source whose first page is `[pA, pB]` with a continuation
token and whose second page repeats `pA`. -/
def dupEnv : Nat → Option UpstreamResponse := fun k =>
  if k = 0 then some ⟨"OK", [pA, pB], some "tok"⟩
  else some ⟨"OK", [pA], none⟩

/-- An upstream source that always answers `ZERO_RESULTS` with no records. -/
def emptyEnv : Nat → Option UpstreamResponse := fun _ =>
  some ⟨"ZERO_RESULTS", [], none⟩

/-- An upstream source answering one page of seven distinct places. -/
def sevenEnv : Nat → Option UpstreamResponse := fun _ =>
  some ⟨"OK",
    [⟨"1", "P1", none, none, none⟩, ⟨"2", "P2", none, none, none⟩,
      ⟨"3", "P3", none, none, none⟩, ⟨"4", "P4", none, none, none⟩,
      ⟨"5", "P5", none, none, none⟩, ⟨"6", "P6", none, none, none⟩,
      ⟨"7", "P7", none, none, none⟩], none⟩

/-- The identity stand-in for `encodeURIComponent` in concrete scenarios. -/
def encId : String → String := fun s => s

/-- A concrete anchor coordinate for concrete scenarios. -/
def anchor0 : Coord := ⟨-6, 107⟩

/-! ## Claims -/

/-- C4: for every query and upstream response sequence (in particular one
that always supplies a continuation token), `getAllPlaces` issues at most 3
upstream requests, returns at most `maxResults` records, and its return
value is the full accumulated ordered sequence of fetched records truncated
from the tail to `maxResults`. -/
theorem getAllPlaces_ceiling (env : Nat → Option UpstreamResponse) (maxResults : Nat) :
    requestsIssued env maxResults ≤ 3 ∧
    (getAllPlaces env maxResults).length ≤ maxResults ∧
    getAllPlaces env maxResults = (accumulatedPlaces env maxResults).take maxResults := by
  refine ⟨?_, ?_, rfl⟩
  · have := fetchLoop_snd_le env maxResults 3 0 []
    simpa [requestsIssued] using this
  · simp [getAllPlaces, List.length_take]

/-- C1 counterexample: with an upstream source whose two pages both contain
the place with identifier `"a"`, the aggregated result of `getAllPlaces`
contains that place twice — the accumulated sequence is not deduplicated. -/
theorem getAllPlaces_duplicate_counterexample :
    getAllPlaces dupEnv 60 = [pA, pB, pA] ∧
    (getAllPlaces dupEnv 60).count pA = 2 := by
  decide

/-- C1 (amended): the aggregated result set returned by the page-fetch
pipeline is the accumulated, ordered concatenation of the fetched pages
truncated to `maxResults`, with no deduplication before ranking and slicing:
two entries may share the same place identifier, as witnessed by `dupEnv`. -/
theorem getAllPlaces_no_dedup :
    (∀ (env : Nat → Option UpstreamResponse) (maxResults : Nat),
      getAllPlaces env maxResults = (accumulatedPlaces env maxResults).take maxResults) ∧
    ¬ ((getAllPlaces dupEnv 60).map RawPlace.place_id).Nodup := by
  exact ⟨fun _ _ => rfl, by decide⟩

/-- C6: every `PaginationInfo` produced by `calculatePagination` satisfies
`total_pages = ⌈total_results / results_per_page⌉` (which is 0 when
`total_results = 0`), `has_next_page ↔ current_page < total_pages` and
`has_prev_page ↔ current_page > 1`, for `results_per_page ≥ 1` and
`current_page ≥ 1`.  The ceiling also equals the integer formula
`(total + per - 1) / per`. -/
theorem calculatePagination_invariant (total per cur : ℕ)
    (hper : 1 ≤ per) (_hcur : 1 ≤ cur) :
    (calculatePagination total per cur).total_pages = ⌈(total : ℚ) / per⌉₊ ∧
    (calculatePagination total per cur).total_pages = (total + per - 1) / per ∧
    (total = 0 → (calculatePagination total per cur).total_pages = 0) ∧
    ((calculatePagination total per cur).has_next_page = true ↔
      cur < (calculatePagination total per cur).total_pages) ∧
    ((calculatePagination total per cur).has_prev_page = true ↔ 1 < cur) := by
  refine ⟨rfl, ceilPages_eq total per hper, ?_, ?_, ?_⟩
  · intro h
    subst h
    simp [calculatePagination, ceilPages]
  · simp [calculatePagination]
  · simp [calculatePagination]

/-- C6 witness: the invariant instantiated at
`total_results = 7, results_per_page = 5, current_page = 2`. -/
theorem calculatePagination_invariant_witness :
    (calculatePagination 7 5 2).total_pages = (7 + 5 - 1) / 5 ∧
    (calculatePagination 7 5 2).has_prev_page = true :=
  ⟨(calculatePagination_invariant 7 5 2 (by decide) (by decide)).2.1,
    (calculatePagination_invariant 7 5 2 (by decide) (by decide)).2.2.2.2.mpr (by decide)⟩

/-- C8 counterexample: with the geocoder failing, the anchor-based
`searchPlaces` does not return a search result — the failure propagates and
the whole call errors out (part_000 rethrows in its `catch`). -/
theorem searchPlaces_geocode_counterexample :
    FindPlaces.searchPlaces (.error ()) emptyEnv "k" encId "PIK" 5 1 =
      .error .geocodeFailed := rfl

/-- C8 (amended): when resolving the anchor location fails, the anchor-based
`searchPlaces` propagates the failure for every validated input — ranking
does not degrade to rating-only; the call as a whole fails. -/
theorem searchPlaces_geocode_propagates (env : Nat → Option UpstreamResponse)
    (key : String) (encode : String → String) (anchorText : String)
    (topN page : ℕ) (h1 : 1 ≤ topN) (h2 : topN ≤ 60) (h3 : 1 ≤ page) :
    FindPlaces.searchPlaces (.error ()) env key encode anchorText topN page =
      .error .geocodeFailed := by
  rw [FindPlaces.searchPlaces, if_neg (by omega), if_neg (by omega)]

/-- C8 amended witness: the propagation at a concrete validated input. -/
theorem searchPlaces_geocode_propagates_witness :
    FindPlaces.searchPlaces (.error ()) sevenEnv "" encId "x" 7 2 =
      .error .geocodeFailed :=
  searchPlaces_geocode_propagates sevenEnv "" encId "x" 7 2
    (by decide) (by decide) (by decide)

/-- C9: the query rewrite never propagates a failure: whenever the rewrite
call fails in any way — the request is rejected, the response carries no
choices, or the first choice has no content — `preprocessQueryWithLLM`
returns the original query text unchanged, so the search proceeds with
`processed_query` equal to `original_query`. -/
theorem preprocessQueryWithLLM_fallback :
    (∀ q : String, FindPlacesLLM.preprocessQueryWithLLM none q = q) ∧
    (∀ (r : FindPlacesLLM.LlmResponse) (q : String), r.choices = [] →
      FindPlacesLLM.preprocessQueryWithLLM (some r) q = q) ∧
    (∀ (c : FindPlacesLLM.LlmChoice) (rest : List FindPlacesLLM.LlmChoice)
      (q : String), c.message.content = none →
      FindPlacesLLM.preprocessQueryWithLLM (some ⟨c :: rest⟩) q = q) := by
  refine ⟨fun q => rfl, ?_, ?_⟩
  · rintro ⟨choices⟩ q h
    simp only at h
    subst h
    rfl
  · rintro ⟨⟨content⟩⟩ rest q h
    simp only at h
    subst h
    rfl

/-- C9 witness: the fallback at a concrete failing response. -/
theorem preprocessQueryWithLLM_fallback_witness :
    FindPlacesLLM.preprocessQueryWithLLM (some ⟨[]⟩) "best pizza Manhattan" =
      "best pizza Manhattan" :=
  preprocessQueryWithLLM_fallback.2.1 ⟨[]⟩ "best pizza Manhattan" rfl

/-- C10: in the anchor-based formatter, `distance_km` is `null` exactly when
the anchor or the place's coordinate is absent, and otherwise equals the
haversine distance (Earth radius 6371 km) rounded to two decimal places via
`Math.round(d * 100) / 100`. -/
theorem formatPlaceInfo_distance (key : String) (encode : String → String)
    (anchorCoords : Option Coord) (place : RawPlace) :
    ((FindPlaces.formatPlaceInfo key encode anchorCoords place).distance_km = none ↔
      anchorCoords = none ∨ place.geometry.bind Geometry.location = none) ∧
    (∀ a c, anchorCoords = some a → place.geometry.bind Geometry.location = some c →
      (FindPlaces.formatPlaceInfo key encode anchorCoords place).distance_km =
        some (FindPlaces.jsRound2
          (FindPlaces.calculateDistance a.lat a.lng c.lat c.lng))) := by
  constructor
  · cases anchorCoords with
    | none => simp [FindPlaces.formatPlaceInfo]
    | some a =>
      cases h : place.geometry.bind Geometry.location with
      | none => simp [FindPlaces.formatPlaceInfo, h]
      | some c => simp [FindPlaces.formatPlaceInfo, h]
  · intro a c ha hc
    subst ha
    simp [FindPlaces.formatPlaceInfo, hc]

/-- C10 witness: absent anchor yields a `null` distance at a concrete place. -/
theorem formatPlaceInfo_distance_witness :
    (FindPlaces.formatPlaceInfo "k" encId none pA).distance_km = none :=
  (formatPlaceInfo_distance "k" encId none pA).1.mpr (Or.inl rfl)

/-- C5 counterexample: with zero raw places fetched and `pageNumber = 2`,
`searchPlaces` does return `ZERO_RESULTS` with empty results and
`total_pages = 0`, but `has_prev_page` is `true`, not `false` — the claim
fails for every `pageNumber ≥ 2`. -/
theorem searchPlaces_zero_results_counterexample :
    FindPlacesBasic.searchPlaces emptyEnv "k" encId 5 2 =
      .ok ⟨"ZERO_RESULTS", [],
        ⟨2, 0, 5, 0, false, true⟩⟩ := by
  have hz : getAllPlaces emptyEnv 60 = [] := by decide
  rw [FindPlacesBasic.searchPlaces, if_neg (by omega), if_neg (by omega),
    if_pos (by rw [hz]; rfl)]
  have hpag : calculatePagination 0 5 2 = ⟨2, 0, 5, 0, false, true⟩ := by
    simp [calculatePagination, ceilPages]
  rw [hpag]

/-- C5 (amended): when the fetch yields zero raw places, `searchPlaces`
returns immediately (no ranking, slicing or page-range error) with status
`ZERO_RESULTS`, an empty result list, `total_pages = 0` and
`has_next_page = false`; `has_prev_page`, however, is `pageNumber > 1`
(`false` exactly when `pageNumber = 1`). -/
theorem searchPlaces_zero_results (env : Nat → Option UpstreamResponse)
    (key : String) (encode : String → String) (topN page : ℕ)
    (h1 : 1 ≤ topN) (h2 : topN ≤ 60) (h3 : 1 ≤ page)
    (hz : getAllPlaces env 60 = []) :
    FindPlacesBasic.searchPlaces env key encode topN page =
      .ok ⟨"ZERO_RESULTS", [], calculatePagination 0 topN page⟩ ∧
    (calculatePagination 0 topN page).total_pages = 0 ∧
    (calculatePagination 0 topN page).has_next_page = false ∧
    ((calculatePagination 0 topN page).has_prev_page = true ↔ 1 < page) := by
  have htp : (calculatePagination 0 topN page).total_pages = 0 := by
    simp [calculatePagination, ceilPages]
  refine ⟨?_, htp, ?_, ?_⟩
  · rw [FindPlacesBasic.searchPlaces, if_neg (by omega), if_neg (by omega),
      if_pos (by rw [hz]; rfl)]
  · simp [calculatePagination, ceilPages]
  · simp [calculatePagination]

/-- C5 amended witness: the zero-results shape at `pageNumber = 1`. -/
theorem searchPlaces_zero_results_witness :
    FindPlacesBasic.searchPlaces emptyEnv "" encId 5 1 =
      .ok ⟨"ZERO_RESULTS", [], calculatePagination 0 5 1⟩ :=
  (searchPlaces_zero_results emptyEnv "" encId 5 1
    (by decide) (by decide) (by decide) (by decide)).1

/-- Formatting and sorting preserve the number of aggregated places. -/
theorem rankedPlaces_length (a : Coord) (env : Nat → Option UpstreamResponse)
    (key : String) (encode : String → String) :
    (FindPlaces.rankedPlaces a env key encode).length =
      (getAllPlaces env 60).length := by
  simp [FindPlaces.rankedPlaces, FindPlaces.sortPlaces,
    List.length_insertionSort, List.length_map]

/-- C7: for a non-empty aggregated result set and validated parameters, the
anchor-based `searchPlaces` fails with the page-not-found error carrying the
valid total page count exactly when the slice start index
`(pageNumber - 1) * pageSize` is at least `total_results`; the witness below
instantiates `total_results = 7, pageSize = 5, pageNumber = 3`, which fails
reporting `total_pages = 2`. -/
theorem searchPlaces_page_out_of_range (a : Coord)
    (env : Nat → Option UpstreamResponse) (key : String)
    (encode : String → String) (anchorText : String) (topN page : ℕ)
    (h1 : 1 ≤ topN) (h2 : topN ≤ 60) (h3 : 1 ≤ page)
    (hne : getAllPlaces env 60 ≠ []) :
    FindPlaces.searchPlaces (.ok a) env key encode anchorText topN page =
        .error (.pageNotFound page (ceilPages (getAllPlaces env 60).length topN)) ↔
      (getAllPlaces env 60).length ≤ (page - 1) * topN := by
  have hlen := rankedPlaces_length a env key encode
  rw [FindPlaces.searchPlaces, if_neg (by omega), if_neg (by omega)]
  simp only
  rw [if_neg (by simpa using List.length_eq_zero.not.mpr hne), hlen]
  constructor
  · intro h
    by_contra hc
    rw [if_neg (by omega)] at h
    simp at h
  · intro h
    rw [if_pos h]

/-- C7 witness: seven aggregated results, page size 5, page 3 — the call
fails with the page-not-found error reporting 2 total pages. -/
theorem searchPlaces_page_out_of_range_witness :
    FindPlaces.searchPlaces (.ok anchor0) sevenEnv "k" encId "PIK" 5 3 =
      .error (.pageNotFound 3 2) := by
  have hl : (getAllPlaces sevenEnv 60).length = 7 := by decide
  have h := (searchPlaces_page_out_of_range anchor0 sevenEnv "k" encId "PIK" 5 3
    (by decide) (by decide) (by decide) (by decide)).mpr (by rw [hl]; decide)
  rw [hl] at h
  have hc : ceilPages 7 5 = 2 := by simp [ceilPages_eq]
  rw [hc] at h
  exact h

/-- The formatted place at 10.0 km with rating 3.5 from the concrete sort
scenario. -/
def placeTen : FindPlaces.FormattedPlace :=
  ⟨"Ten", none, some 3.5, "ten", "", "", some 10⟩

/-- The formatted place at 10.3 km with rating 4.8 from the concrete sort
scenario. -/
def placeTenThree : FindPlaces.FormattedPlace :=
  ⟨"TenThree", none, some 4.8, "tenthree", "", "", some 10.3⟩

/-- C2: the comparator used by `searchPlaces` orders any two formatted
places as specified — a non-null-distance entry precedes a null-distance
entry; among non-null-distance entries rating descending decides inside the
0.5 km band and distance ascending outside it; among null-distance entries
rating descending decides (a negative comparator value places its first
argument first) — and in the concrete scenario with distances 10.0 km and
10.3 km and ratings 3.5 and 4.8, the 4.8-rated place precedes the
10.0 km place in the sorted output. -/
theorem comparePlaces_spec :
    (∀ a b : FindPlaces.FormattedPlace,
      (a.distance_km ≠ none → b.distance_km = none →
        FindPlaces.comparePlaces a b < 0) ∧
      (∀ da db, a.distance_km = some da → b.distance_km = some db →
        |da - db| < 0.5 → b.rating.getD 0 < a.rating.getD 0 →
        FindPlaces.comparePlaces a b < 0) ∧
      (∀ da db, a.distance_km = some da → b.distance_km = some db →
        ¬ |da - db| < 0.5 → da < db → FindPlaces.comparePlaces a b < 0) ∧
      (a.distance_km = none → b.distance_km = none →
        b.rating.getD 0 < a.rating.getD 0 → FindPlaces.comparePlaces a b < 0)) ∧
    FindPlaces.sortPlaces [placeTen, placeTenThree] = [placeTenThree, placeTen] ∧
    FindPlaces.sortPlaces [placeTenThree, placeTen] = [placeTenThree, placeTen] := by
  have hband : |(10 : ℚ) - 10.3| < 0.5 := by
    rw [abs_sub_comm, abs_of_nonneg (by norm_num : (0:ℚ) ≤ 10.3 - 10)]
    norm_num
  have hcmp : FindPlaces.comparePlaces placeTen placeTenThree = 1.3 := by
    rw [placeTen, placeTenThree, FindPlaces.comparePlaces]
    simp only [if_pos hband]
    norm_num
  have hcmp2 : FindPlaces.comparePlaces placeTenThree placeTen = -1.3 := by
    have hband2 : |(10.3 : ℚ) - 10| < 0.5 := by rwa [abs_sub_comm] at hband
    rw [placeTenThree, placeTen, FindPlaces.comparePlaces]
    simp only [if_pos hband2]
    norm_num
  refine ⟨?_, ?_, ?_⟩
  · intro a b
    refine ⟨?_, ?_, ?_, ?_⟩
    · intro ha hb
      rcases Option.ne_none_iff_exists.mp ha with ⟨da, hda⟩
      rw [FindPlaces.comparePlaces, ← hda, hb]
      norm_num
    · intro da db hda hdb hlt hr
      rw [FindPlaces.comparePlaces, hda, hdb]
      simp only [if_pos hlt]
      linarith
    · intro da db hda hdb hge hd
      rw [FindPlaces.comparePlaces, hda, hdb]
      simp only [if_neg hge]
      linarith
    · intro ha hb hr
      rw [FindPlaces.comparePlaces, ha, hb]
      linarith
  · rw [FindPlaces.sortPlaces]
    simp only [List.insertionSort, List.orderedInsert]
    rw [if_neg (by rw [hcmp]; norm_num)]
  · rw [FindPlaces.sortPlaces]
    simp only [List.insertionSort, List.orderedInsert]
    rw [if_pos (by rw [hcmp2]; norm_num)]

/-- C2 witness: the non-null-before-null comparator case at a concrete pair,
tied to the concrete sorted output. -/
theorem comparePlaces_spec_witness :
    FindPlaces.comparePlaces placeTen ⟨"N", none, some 5, "n", "", "", none⟩ < 0 ∧
    FindPlaces.sortPlaces [placeTen, placeTenThree] = [placeTenThree, placeTen] :=
  ⟨(comparePlaces_spec.1 placeTen ⟨"N", none, some 5, "n", "", "", none⟩).1
      (by simp [placeTen]) rfl,
    comparePlaces_spec.2.1⟩

/-- The results list carried by a successful `searchPlaces` outcome. -/
def pageResults : Except SearchError FindPlaces.SearchResult →
    List FindPlaces.FormattedPlace
  | .ok r => r.results
  | .error _ => []

/-- For validated parameters whose slice starts inside the aggregated
sequence, the anchor-based `searchPlaces` succeeds with exactly the source's
page slice of the ranked sequence. -/
theorem searchPlaces_ok (a : Coord) (env : Nat → Option UpstreamResponse)
    (key : String) (encode : String → String) (anchorText : String)
    (topN page : ℕ) (h1 : 1 ≤ topN) (h2 : topN ≤ 60) (h3 : 1 ≤ page)
    (hstart : (page - 1) * topN < (getAllPlaces env 60).length) :
    FindPlaces.searchPlaces (.ok a) env key encode anchorText topN page =
      .ok { status := "OK"
            results := jsSlice (FindPlaces.rankedPlaces a env key encode)
              ((page - 1) * topN)
              (min ((page - 1) * topN + topN)
                (FindPlaces.rankedPlaces a env key encode).length)
            pagination := calculatePagination
              (FindPlaces.rankedPlaces a env key encode).length topN page
            anchor_location := anchorText } := by
  have hlen := rankedPlaces_length a env key encode
  rw [FindPlaces.searchPlaces, if_neg (by omega), if_neg (by omega)]
  simp only
  rw [if_neg (by omega), if_neg (by omega)]

/-- C3: for a valid page of the aggregated result sequence, `searchPlaces`
returns the slice `[(pageNumber-1)*pageSize, min(pageNumber*pageSize,
total_results))` of the ranked sequence, the slice length equals
`min(pageSize, total_results - (pageNumber-1)*pageSize)`, and concatenating
the result slices of pages `1 .. total_pages` reconstructs the full ranked
sequence exactly, with no duplicates and no omissions. -/
theorem searchPlaces_pagination (a : Coord) (env : Nat → Option UpstreamResponse)
    (key : String) (encode : String → String) (anchorText : String)
    (pageSize page : ℕ) (h1 : 1 ≤ pageSize) (h2 : pageSize ≤ 60) (h3 : 1 ≤ page)
    (hp : page ≤ ceilPages (getAllPlaces env 60).length pageSize) :
    (∃ r : FindPlaces.SearchResult,
      FindPlaces.searchPlaces (.ok a) env key encode anchorText pageSize page =
        .ok r ∧
      r.results = jsSlice (FindPlaces.rankedPlaces a env key encode)
        ((page - 1) * pageSize)
        (min (page * pageSize) (FindPlaces.rankedPlaces a env key encode).length) ∧
      r.results.length = min pageSize
        ((FindPlaces.rankedPlaces a env key encode).length -
          (page - 1) * pageSize)) ∧
    ((List.range (ceilPages (FindPlaces.rankedPlaces a env key encode).length
        pageSize)).map (fun i => pageResults
          (FindPlaces.searchPlaces (.ok a) env key encode anchorText pageSize
            (i + 1)))).flatten =
      FindPlaces.rankedPlaces a env key encode := by
  have hlen := rankedPlaces_length a env key encode
  have hstart : (page - 1) * pageSize < (getAllPlaces env 60).length := by
    refine (lt_iff_page_le _ _ _ h1 h3).mpr ?_
    rwa [ceilPages_eq _ _ h1] at hp
  have hmul : (page - 1) * pageSize + pageSize = page * pageSize := by
    rcases Nat.exists_eq_add_of_le h3 with ⟨m, rfl⟩
    rw [Nat.add_sub_cancel_left, Nat.add_mul, Nat.one_mul, Nat.add_comm]
  constructor
  · refine ⟨_, searchPlaces_ok a env key encode anchorText pageSize page
      h1 h2 h3 hstart, ?_, ?_⟩
    · rw [hmul]
    · rw [jsSlice_length]
  · have hrec : ∀ i ∈ List.range (ceilPages
        (FindPlaces.rankedPlaces a env key encode).length pageSize),
        pageResults (FindPlaces.searchPlaces (.ok a) env key encode anchorText
          pageSize (i + 1)) =
          ((FindPlaces.rankedPlaces a env key encode).drop (i * pageSize)).take
            pageSize := by
      intro i hi
      rw [List.mem_range, hlen, ceilPages_eq _ _ h1] at hi
      have hstart_i : ((i + 1) - 1) * pageSize < (getAllPlaces env 60).length :=
        (lt_iff_page_le (getAllPlaces env 60).length pageSize (i + 1) h1
          (by omega)).mpr (by omega)
      rw [searchPlaces_ok a env key encode anchorText pageSize (i + 1)
        h1 h2 (by omega) hstart_i]
      rw [pageResults, Nat.add_sub_cancel]
      exact jsSlice_eq_drop_take _ _ _
    rw [List.map_congr_left hrec, ceilPages_eq _ _ h1]
    exact join_chunks pageSize h1 _

/-- C3 witness: seven aggregated results, page size 5, page 2. -/
theorem searchPlaces_pagination_witness :
    ∃ r : FindPlaces.SearchResult,
      FindPlaces.searchPlaces (.ok anchor0) sevenEnv "k" encId "PIK" 5 2 =
        .ok r ∧
      r.results = jsSlice (FindPlaces.rankedPlaces anchor0 sevenEnv "k" encId)
        (1 * 5)
        (min (2 * 5) (FindPlaces.rankedPlaces anchor0 sevenEnv "k" encId).length) ∧
      r.results.length = min 5
        ((FindPlaces.rankedPlaces anchor0 sevenEnv "k" encId).length - 1 * 5) :=
  (searchPlaces_pagination anchor0 sevenEnv "k" encId "PIK" 5 2
    (by decide) (by decide) (by decide)
    (by
      have hl : (getAllPlaces sevenEnv 60).length = 7 := by decide
      rw [hl, ceilPages_eq 7 5 (by decide)])).1
